import Mathlib

/-!
Verification of the bess-leaderboard revenue reconciliation pipeline.

Shallow embedding of the pure data transformations of the repository:
`src/utils.py` (get_wavg, format_revenue_reporting),
`src/components/wholesale.py` (clean_MIDP, split_pns_df, get_wholesale_revenue),
`src/components/dfr.py` (the Revenue column of get_DFR_revenue, filter_dfr_bmu,
replace_units_with_site_names, append_wholesale_to_dfr).

Numeric columns are modelled as rationals (ℚ); a float NaN cell is modelled
as `none` of an `Option ℚ` column. Dataframes are lists of row structures,
and a pandas groupby is modelled as one output row per distinct key, in
first-occurrence order (pandas emits groups in sorted key order; none of
the properties below depends on row order).
-/

namespace Bess

/-- Truncation of a rational toward zero, the semantics of numpy
`astype(int)` applied to a float column. Defined through integer division
of the numerator by the denominator, arranged so only nonnegative
numerators are divided (where truncating and flooring division agree). -/
def truncInt (q : ℚ) : ℤ :=
  if 0 ≤ q.num then q.num / (q.den : ℤ) else -((-q.num) / (q.den : ℤ))

/-! ### Price Reconciler (clean_MIDP / get_wavg) -/

/-- A raw market-index quotation row: the `provider`, `settlementPeriod`,
`MIDP (£/MWh)` and `Volume` columns of the dataframe returned by
`get_MIDP` (one quotation of one provider for one settlement period). -/
structure MidQuote where
  provider : String
  settlementPeriod : ℕ
  price : ℚ
  volume : ℚ
deriving DecidableEq, Repr

/-- Embedding of `get_wavg` (src/utils.py lines 44-54):
`(d * w).sum() / w.sum()` over the price and volume columns of one group.
When `w.sum() == 0` the float division yields NaN/inf, a non-numeric cell,
modelled as `none`; otherwise the exact rational ratio is returned. -/
def get_wavg (rows : List MidQuote) : Option ℚ :=
  let num := (rows.map (fun r => r.price * r.volume)).sum
  let den := (rows.map (fun r => r.volume)).sum
  if den = 0 then none else some (num / den)

/-- One output row of the price reconciler: `settlementPeriod` and the
reconciled `MIDP (£/MWh)` value, which is a NaN cell (`none`) when the
group's total volume was zero. -/
structure MidRow where
  settlementPeriod : ℕ
  price : Option ℚ
deriving DecidableEq, Repr

/-- Embedding of `clean_MIDP` (src/components/wholesale.py lines 132-150):
`df.groupby("settlementPeriod").apply(get_wavg, ...).reset_index()`.
One output row per settlement period present in the input; its value is
`get_wavg` of that period's rows. -/
def clean_MIDP (qs : List MidQuote) : List MidRow :=
  ((qs.map (fun q => q.settlementPeriod)).dedup).map
    (fun sp => ⟨sp, get_wavg (qs.filter (fun q => decide (q.settlementPeriod = sp)))⟩)

/-! ### Interval Volume Apportioner / Wholesale Revenue Calculator -/

/-- A physical-notification row as consumed by `split_pns_df`: balancing
unit, settlement period, interval start/end (as absolute times in seconds,
the resolution at which `.dt.seconds` operates) and the contracted levels
at the two ends of the interval. -/
structure PNRow where
  nationalGridBmUnit : String
  settlementPeriod : ℕ
  timeFrom : ℕ
  timeTo : ℕ
  levelFrom : ℚ
  levelTo : ℚ
deriving DecidableEq, Repr

/-- One row of the system-price series (`get_system_price` output):
settlement period and `Sys Price (£/MWh)`. NaN rows were removed by the
`dropna()` in `get_system_price`, so the value is a plain rational. -/
structure SysRow where
  settlementPeriod : ℕ
  price : ℚ
deriving DecidableEq, Repr

/-- The `Hours` column of `split_pns_df`:
`(df["timeTo"] - df["timeFrom"]).dt.seconds / 3600`. A Python timedelta's
`.seconds` attribute is the nonnegative seconds-within-a-day component,
i.e. the difference modulo 86400. -/
def hoursOf (p : PNRow) : ℚ :=
  ((((p.timeTo : ℤ) - (p.timeFrom : ℤ)) % 86400 : ℤ) : ℚ) / 3600

/-- A physical-notification row after the two price merges and the
derived-column steps of `split_pns_df`: the PN fields joined with the
reconciled MIDP (NaN filled to 0 by `df.fillna(0)`), the system price,
and the `Hours` column. -/
structure MergedRow where
  nationalGridBmUnit : String
  settlementPeriod : ℕ
  levelFrom : ℚ
  levelTo : ℚ
  midp : ℚ
  sysPrice : ℚ
  hours : ℚ
deriving DecidableEq, Repr

/-- A ramping row of `split_pns_df`'s second output, carrying the extra
`Net PN` column. -/
structure NetRow extends MergedRow where
  netPN : ℚ
deriving DecidableEq, Repr

/-- Embedding of `split_pns_df` (src/components/wholesale.py lines
202-258). `pd.merge(df, mid_price_df, on="settlementPeriod")` followed by
`pd.merge(df, sys_price_df, on="settlementPeriod")` are inner joins: a PN
row is paired with every price row of matching settlement period and
dropped when either series has no row for its period. `df.fillna(0)`
replaces NaN cells of the retained rows (a NaN reconciled MIDP) with 0.
`Hours` is derived, rows are split on `levelFrom == levelTo` (the `Equal`
flag), and ramping rows gain `Net PN = levelFrom + levelTo`. -/
def split_pns_df (pns : List PNRow) (mid : List MidRow) (sys : List SysRow) :
    List MergedRow × List NetRow :=
  let merged : List MergedRow := pns.flatMap (fun p =>
    (mid.filter (fun m => decide (m.settlementPeriod = p.settlementPeriod))).flatMap (fun m =>
      (sys.filter (fun s => decide (s.settlementPeriod = p.settlementPeriod))).map (fun s =>
        { nationalGridBmUnit := p.nationalGridBmUnit
          settlementPeriod := p.settlementPeriod
          levelFrom := p.levelFrom
          levelTo := p.levelTo
          midp := m.price.getD 0
          sysPrice := s.price
          hours := hoursOf p })))
  let eq_df := merged.filter (fun r => decide (r.levelFrom = r.levelTo))
  let not_eq_df := (merged.filter (fun r => decide (¬ r.levelFrom = r.levelTo))).map
    (fun r => { toMergedRow := r, netPN := r.levelFrom + r.levelTo })
  (eq_df, not_eq_df)

/-- A row of the `wholesale_df` built by `get_wholesale_revenue`: the
merged PN fields with the two per-interval revenue columns. -/
structure RevRow where
  nationalGridBmUnit : String
  settlementPeriod : ℕ
  levelFrom : ℚ
  levelTo : ℚ
  midp : ℚ
  sysPrice : ℚ
  hours : ℚ
  wholesaleMIDP : ℚ
  wholesaleSys : ℚ
deriving DecidableEq, Repr

/-- A row of the grouped wholesale output: per balancing unit, the summed
`Wholesale MIDP (£)` and `Wholesale Sys (£)` columns. -/
structure GroupedWholesale where
  unitName : String
  wholesaleMIDP : ℚ
  wholesaleSys : ℚ
deriving DecidableEq, Repr

/-- Embedding of `get_wholesale_revenue` (src/components/wholesale.py
lines 261-300). Flat rows earn `levelFrom * Hours * price`, ramping rows
earn `Net PN * Hours * price`, for each of the two price series; the two
frames are concatenated and both revenue columns are summed grouped by
`nationalGridBmUnit`. -/
def get_wholesale_revenue (eq_df : List MergedRow) (not_eq_df : List NetRow) :
    List RevRow × List GroupedWholesale :=
  let eqRev : List RevRow := eq_df.map (fun r =>
    { nationalGridBmUnit := r.nationalGridBmUnit
      settlementPeriod := r.settlementPeriod
      levelFrom := r.levelFrom
      levelTo := r.levelTo
      midp := r.midp
      sysPrice := r.sysPrice
      hours := r.hours
      wholesaleMIDP := r.levelFrom * r.hours * r.midp
      wholesaleSys := r.levelFrom * r.hours * r.sysPrice })
  let neqRev : List RevRow := not_eq_df.map (fun r =>
    { nationalGridBmUnit := r.nationalGridBmUnit
      settlementPeriod := r.settlementPeriod
      levelFrom := r.levelFrom
      levelTo := r.levelTo
      midp := r.midp
      sysPrice := r.sysPrice
      hours := r.hours
      wholesaleMIDP := r.netPN * r.hours * r.midp
      wholesaleSys := r.netPN * r.hours * r.sysPrice })
  let wholesale_df := eqRev ++ neqRev
  let units := (wholesale_df.map (fun r => r.nationalGridBmUnit)).dedup
  let grouped := units.map (fun u =>
    let rows := wholesale_df.filter (fun r => decide (r.nationalGridBmUnit = u))
    { unitName := u
      wholesaleMIDP := (rows.map (fun r => r.wholesaleMIDP)).sum
      wholesaleSys := (rows.map (fun r => r.wholesaleSys)).sum })
  (wholesale_df, grouped)

/-- The composition `get_wholesale_revenue ∘ split_pns_df` as wired in
`app.py` lines 56-59: from raw PN rows and the two price series to the
per-interval revenue rows and the per-asset aggregate. -/
def wholesale_pipeline (pns : List PNRow) (mid : List MidRow) (sys : List SysRow) :
    List RevRow × List GroupedWholesale :=
  let s := split_pns_df pns mid sys
  get_wholesale_revenue s.1 s.2

/-! ### Auction Revenue Calculator (dfr.py) -/

/-- One row of the asset-identity mapping table (`asset_ids.xlsx` as read
by `get_asset_ids`): site, owner, optimiser, `BMU ID`, `DFR/FFR ID`,
nameplate MW and MWh. -/
structure AssetRow where
  site : String
  owner : String
  optimiser : String
  bmuId : String
  dfrId : String
  mw : ℚ
  mwh : ℚ
deriving DecidableEq, Repr

/-- A parsed auction-result record, the columns `get_DFR_revenue` keeps
before deriving revenue: delivery window, clearing price, service,
company, EFA date, unit name, cleared volume and EFA block. -/
structure AuctionRec where
  deliveryStart : String
  deliveryEnd : String
  clearingPrice : ℚ
  service : String
  company : String
  efaDate : String
  unitName : String
  clearedVolume : ℚ
  efa : String
deriving DecidableEq, Repr

/-- An auction record with the derived `Revenue` column. -/
structure AuctionRow extends AuctionRec where
  revenue : ℚ
deriving DecidableEq, Repr

/-- Embedding of the revenue derivation of `get_DFR_revenue`
(src/components/dfr.py lines 74-77), the pure tail of the fetch function:
`subset["Revenue"] = subset["Clearing Price"] * subset["Cleared Volume"] * 4`
applied to every parsed record. -/
def get_DFR_revenue (recs : List AuctionRec) : List AuctionRow :=
  recs.map (fun r => { toAuctionRec := r, revenue := r.clearingPrice * r.clearedVolume * 4 })

/-- One row of the aggregated auction table produced by `filter_dfr_bmu`:
unit name, EFA date and the summed revenue of that group. -/
structure DfrAggRow where
  unitName : String
  efaDate : String
  revenue : ℚ
deriving DecidableEq, Repr

/-- Embedding of `filter_dfr_bmu` (src/components/dfr.py lines 90-110):
keep the auction rows whose `Unit Name` is one of the mapping table's
`DFR/FFR ID` values (`isin` of the `unique()` ids), then sum `Revenue`
grouped by `(Unit Name, EFA Date)`. -/
def filter_dfr_bmu (map_df : List AssetRow) (dfr_df : List AuctionRow) : List DfrAggRow :=
  let dfr_ffr_ids := (map_df.map (fun a => a.dfrId)).dedup
  let dfr_mask := dfr_df.filter (fun r => decide (r.unitName ∈ dfr_ffr_ids))
  let keys := (dfr_mask.map (fun r => (r.unitName, r.efaDate))).dedup
  keys.map (fun k =>
    { unitName := k.1
      efaDate := k.2
      revenue := ((dfr_mask.filter (fun r =>
          decide (r.unitName = k.1 ∧ r.efaDate = k.2))).map (fun r => r.revenue)).sum })

/-- The value type of the nested dictionary built by `get_bmu_dfr_dict`:
per DFR unit id, the asset's `BMU ID`, site, owner, optimiser, MW, MWh. -/
structure AssetInfo where
  bmuId : String
  site : String
  owner : String
  optimiser : String
  mw : ℚ
  mwh : ℚ
deriving DecidableEq, Repr

/-- Lookup in the identifier-mapping dictionary, i.e. the
`for key in dict_map.keys(): if unit == key` scan of
`replace_units_with_site_names` over a Python dict (whose keys are
unique, so the scan finds at most one match). -/
def dictFind (m : List (String × AssetInfo)) (k : String) : Option AssetInfo :=
  match m with
  | [] => none
  | (k2, v) :: rest => if k2 = k then some v else dictFind rest k

/-- An aggregated auction row after `replace_units_with_site_names`
assigned the mapped columns and renamed `Revenue` to `DFR (£)`. -/
structure DfrOutRow where
  unitName : String
  efaDate : String
  dfr : ℚ
  bmuId : String
  site : String
  owner : String
  optimiser : String
  mw : ℚ
  mwh : ℚ
deriving DecidableEq, Repr

/-- Embedding of `replace_units_with_site_names` (src/components/dfr.py
lines 144-177). The six collected lists all have one entry per input row
whose `Unit Name` has a dictionary entry (the nested key loop appends at
most once per row). pandas accepts the column assignments
`df["BMU ID"] = bmus` etc. only when the lists' length equals the row
count, and raises a length-mismatch `ValueError` otherwise, modelled as
`none`. -/
def replace_units_with_site_names (df : List DfrAggRow) (dict_map : List (String × AssetInfo)) :
    Option (List DfrOutRow) :=
  let collected : List DfrOutRow := df.filterMap (fun r =>
    (dictFind dict_map r.unitName).map (fun a =>
      { unitName := r.unitName
        efaDate := r.efaDate
        dfr := r.revenue
        bmuId := a.bmuId
        site := a.site
        owner := a.owner
        optimiser := a.optimiser
        mw := a.mw
        mwh := a.mwh }))
  if collected.length = df.length then some collected else none

/-! ### Revenue Merger -/

/-- A row of the combined revenue table produced by
`append_wholesale_to_dfr`: the DFR row joined with the grouped wholesale
revenues of the same unit. -/
structure CombinedRow where
  unitName : String
  bmuId : String
  site : String
  mw : ℚ
  mwh : ℚ
  efaDate : String
  owner : String
  optimiser : String
  dfr : ℚ
  wholesaleMIDP : ℚ
  wholesaleSys : ℚ
deriving DecidableEq, Repr

/-- Embedding of `append_wholesale_to_dfr` (src/components/dfr.py lines
182-210): `pd.merge(dfr_df, wholesale_df, on="Unit Name")`, an inner join
pairing each DFR row with every grouped-wholesale row of equal unit name
(rows without a partner are dropped), followed by a column reorder. -/
def append_wholesale_to_dfr (dfr_df : List DfrOutRow) (wholesale_df : List GroupedWholesale) :
    List CombinedRow :=
  dfr_df.flatMap (fun d =>
    (wholesale_df.filter (fun w => decide (w.unitName = d.unitName))).map (fun w =>
      { unitName := d.unitName
        bmuId := d.bmuId
        site := d.site
        mw := d.mw
        mwh := d.mwh
        efaDate := d.efaDate
        owner := d.owner
        optimiser := d.optimiser
        dfr := d.dfr
        wholesaleMIDP := w.wholesaleMIDP
        wholesaleSys := w.wholesaleSys }))

/-- The input of `format_revenue_reporting` as assembled in `app.py`
lines 72-77: the combined DFR/wholesale table left-joined with the
balancing aggregate on `BMU ID`. The revenue cells are `Option ℚ`: a left
join leaves `BM (£)` as NaN (`none`) for assets with no balancing rows,
and a NaN can likewise sit in any other float column. -/
structure RevenueInputRow where
  unitName : String
  bmuId : String
  site : String
  mw : ℚ
  mwh : ℚ
  efaDate : String
  owner : String
  optimiser : String
  dfr : Option ℚ
  wholesaleMIDP : Option ℚ
  wholesaleSys : Option ℚ
  bm : Option ℚ
deriving DecidableEq, Repr

/-- The per-row state of `format_revenue_reporting` after the `fillna`,
`astype(int)`, `Total (£)` and float `k/MW/yr` steps, before sorting and
the final truncation of `k/MW/yr`. -/
structure PreRow where
  site : String
  owner : String
  optimiser : String
  efaDate : String
  mw : ℚ
  mwh : ℚ
  dfr : ℤ
  bm : ℤ
  wholesaleMIDP : ℤ
  wholesaleSys : ℤ
  total : ℤ
  kq : ℚ
deriving DecidableEq, Repr

/-- The row-wise body of `format_revenue_reporting` (src/utils.py lines
57-82): `fillna(0)` on the NaN cells, `astype(int)` truncation of the four
revenue columns, `Total (£) = DFR (£) + Wholesale MIDP (£) + BM (£)`
computed from the truncated integers, and the float
`k/MW/yr = Total (£) * 365 / (MW * 1000)`. -/
def cleanRow (r : RevenueInputRow) : PreRow :=
  let dfrInt := truncInt (r.dfr.getD 0)
  let midpInt := truncInt (r.wholesaleMIDP.getD 0)
  let sysInt := truncInt (r.wholesaleSys.getD 0)
  let bmInt := truncInt (r.bm.getD 0)
  let total := dfrInt + midpInt + bmInt
  { site := r.site
    owner := r.owner
    optimiser := r.optimiser
    efaDate := r.efaDate
    mw := r.mw
    mwh := r.mwh
    dfr := dfrInt
    bm := bmInt
    wholesaleMIDP := midpInt
    wholesaleSys := sysInt
    total := total
    kq := ((total : ℚ) * 365) / (r.mw * 1000) }

/-- A final leaderboard row: the columns kept and reordered by
`format_revenue_reporting` after `iloc[:, 2:]` dropped `Unit Name` and
`BMU ID`, with `k/MW/yr` truncated to an integer. -/
structure LeaderRow where
  site : String
  owner : String
  optimiser : String
  efaDate : String
  mw : ℚ
  mwh : ℚ
  dfr : ℤ
  bm : ℤ
  wholesaleMIDP : ℤ
  wholesaleSys : ℤ
  total : ℤ
  kMWyr : ℤ
deriving DecidableEq, Repr

/-- Embedding of `format_revenue_reporting` (src/utils.py lines 57-82):
apply `cleanRow` to every row, sort descending by the float `k/MW/yr`
column, then truncate `k/MW/yr` with `astype(int)` and keep the reordered
display columns. -/
def format_revenue_reporting (rows : List RevenueInputRow) : List LeaderRow :=
  let pre := rows.map cleanRow
  let sorted := List.insertionSort (fun a b : PreRow => b.kq ≤ a.kq) pre
  sorted.map (fun p =>
    { site := p.site
      owner := p.owner
      optimiser := p.optimiser
      efaDate := p.efaDate
      mw := p.mw
      mwh := p.mwh
      dfr := p.dfr
      bm := p.bm
      wholesaleMIDP := p.wholesaleMIDP
      wholesaleSys := p.wholesaleSys
      total := p.total
      kMWyr := truncInt p.kq })

/-! ### Concrete instances used by witnesses and counterexamples -/

/-- The two quotations of the spec's worked reconciliation example:
P1 with price 50 and volume 10, P2 with price 70 and volume 30, both in
settlement period 1. -/
def qsC4 : List MidQuote :=
  [⟨"P1", 1, 50, 10⟩, ⟨"P2", 1, 70, 30⟩]

/-- A single quotation whose settlement period has total volume 0. -/
def qsC9 : List MidQuote :=
  [⟨"P1", 1, 50, 0⟩]

/-- A single physical notification in settlement period 5, flat at level 3
over a half-hour interval. -/
def pnsC2 : List PNRow :=
  [⟨"BMU-A", 5, 0, 1800, 3, 3⟩]

/-- A reconciled market-index price of 20 for settlement period 5. -/
def midC2 : List MidRow :=
  [⟨5, some 20⟩]

/-- A system price of 10 for settlement period 5. -/
def sysC2 : List SysRow :=
  [⟨5, 10⟩]

/-- The revenue row the pipeline produces for the flat notification of
`pnsC2` priced by `midC2` and `sysC2`. -/
def rowC2 : RevRow :=
  { nationalGridBmUnit := "BMU-A"
    settlementPeriod := 5
    levelFrom := 3
    levelTo := 3
    midp := 20
    sysPrice := 10
    hours := 1 / 2
    wholesaleMIDP := 30
    wholesaleSys := 15 }

/-- A single ramping physical notification in settlement period 5, from
level 2 to level 4 over a half-hour interval. -/
def pnsC3 : List PNRow :=
  [⟨"BMU-A", 5, 0, 1800, 2, 4⟩]

/-- The revenue row the pipeline produces for the ramping notification of
`pnsC3`: net throughput 2 + 4 = 6, half an hour, prices 20 and 10. -/
def rowC3 : RevRow :=
  { nationalGridBmUnit := "BMU-A"
    settlementPeriod := 5
    levelFrom := 2
    levelTo := 4
    midp := 20
    sysPrice := 10
    hours := 1 / 2
    wholesaleMIDP := 60
    wholesaleSys := 30 }

/-- A merged revenue row with sub-pound revenue cells DFR = 0.5,
Wholesale MIDP = 0.5, BM = 0.5. Each cell truncates to 0, so the code's
total is 0 although the pre-truncation values sum to 1.5. -/
def rowC1 : RevenueInputRow :=
  { unitName := "U1", bmuId := "B1", site := "S1", mw := 1, mwh := 1
    efaDate := "2023-01-01", owner := "O1", optimiser := "Op1"
    dfr := some (1 / 2), wholesaleMIDP := some (1 / 2)
    wholesaleSys := some 0, bm := some (1 / 2) }

/-- The leaderboard row `format_revenue_reporting` produces for `rowC1`. -/
def lrC1 : LeaderRow :=
  { site := "S1", owner := "O1", optimiser := "Op1", efaDate := "2023-01-01"
    mw := 1, mwh := 1, dfr := 0, bm := 0, wholesaleMIDP := 0
    wholesaleSys := 0, total := 0, kMWyr := 0 }

/-- The spec's total-revenue example: DFR = 100, Wholesale MIDP = 50,
Wholesale Sys = 999, BM = 25. -/
def rowC5 : RevenueInputRow :=
  { unitName := "U1", bmuId := "B1", site := "S1", mw := 1, mwh := 2
    efaDate := "2023-01-01", owner := "O1", optimiser := "Op1"
    dfr := some 100, wholesaleMIDP := some 50
    wholesaleSys := some 999, bm := some 25 }

/-- The leaderboard row `format_revenue_reporting` produces for `rowC5`:
total 100 + 50 + 25 = 175 with the system-price column excluded, and
k/MW/yr = trunc(175 × 365 / 1000) = 63. -/
def lrC5 : LeaderRow :=
  { site := "S1", owner := "O1", optimiser := "Op1", efaDate := "2023-01-01"
    mw := 1, mwh := 2, dfr := 100, bm := 25, wholesaleMIDP := 50
    wholesaleSys := 999, total := 175, kMWyr := 63 }

/-- An asset-mapping table with one asset whose DFR/FFR id is UNIT1. -/
def mapC7 : List AssetRow :=
  [⟨"S1", "O1", "Op1", "B1", "UNIT1", 10, 20⟩]

/-- One auction record for UNIT1: clearing price 4, cleared volume 2. -/
def recsC7 : List AuctionRec :=
  [⟨"2023-01-01T00:00", "2023-01-01T04:00", 4, "DC", "Co", "2023-01-01", "UNIT1", 2, "1"⟩]

/-- The auction row derived from `recsC7`: revenue 4 × 2 × 4 = 32. -/
def rowC7 : AuctionRow :=
  { deliveryStart := "2023-01-01T00:00", deliveryEnd := "2023-01-01T04:00"
    clearingPrice := 4, service := "DC", company := "Co", efaDate := "2023-01-01"
    unitName := "UNIT1", clearedVolume := 2, efa := "1", revenue := 32 }

/-- The aggregated auction entry for (UNIT1, 2023-01-01): revenue 32. -/
def aggC7 : DfrAggRow :=
  ⟨"UNIT1", "2023-01-01", 32⟩

/-- Two aggregated DFR rows: asset A is also in the wholesale stream,
asset B is not. -/
def dfrC8 : List DfrOutRow :=
  [⟨"A", "2023-01-01", 40, "BA", "SiteA", "OwnA", "OpA", 10, 20⟩,
    ⟨"B", "2023-01-01", 50, "BB", "SiteB", "OwnB", "OpB", 5, 10⟩]

/-- A grouped wholesale table containing asset A only. -/
def wsC8 : List GroupedWholesale :=
  [⟨"A", 7, 8⟩]

/-- The single combined row of `append_wholesale_to_dfr dfrC8 wsC8`. -/
def combC8 : CombinedRow :=
  { unitName := "A", bmuId := "BA", site := "SiteA", mw := 10, mwh := 20
    efaDate := "2023-01-01", owner := "OwnA", optimiser := "OpA"
    dfr := 40, wholesaleMIDP := 7, wholesaleSys := 8 }

/-- A one-entry identifier-mapping dictionary for DFR unit U1. -/
def dictC10 : List (String × AssetInfo) :=
  [("U1", ⟨"B1", "S1", "O1", "Op1", 10, 20⟩)]

/-- An aggregated auction table whose only unit, U1, is mapped. -/
def dfC10a : List DfrAggRow :=
  [⟨"U1", "2023-01-01", 32⟩]

/-- An aggregated auction table whose only unit, U2, has no mapping
entry. -/
def dfC10b : List DfrAggRow :=
  [⟨"U2", "2023-01-01", 5⟩]

/-- The spec's normalization example: total 36500 on a 2 MW asset. -/
def rowC6 : RevenueInputRow :=
  { unitName := "U1", bmuId := "B1", site := "S1", mw := 2, mwh := 4
    efaDate := "2023-01-01", owner := "O1", optimiser := "Op1"
    dfr := some 36500, wholesaleMIDP := some 0
    wholesaleSys := some 0, bm := some 0 }

/-- The leaderboard row `format_revenue_reporting` produces for `rowC6`:
k/MW/yr = trunc(36500 × 365 / (2 × 1000)) = trunc(6661.25) = 6661. -/
def lrC6 : LeaderRow :=
  { site := "S1", owner := "O1", optimiser := "Op1", efaDate := "2023-01-01"
    mw := 2, mwh := 4, dfr := 36500, bm := 0, wholesaleMIDP := 0
    wholesaleSys := 0, total := 36500, kMWyr := 6661 }

end Bess

namespace Bess

/-! ### Helper lemmas -/

/-- Each settlement period present in the quotations contributes its
`get_wavg` row to the `clean_MIDP` output. -/
theorem clean_MIDP_mem_of_mem (qs : List MidQuote) (sp : ℕ)
    (h : sp ∈ qs.map (fun q => q.settlementPeriod)) :
    (⟨sp, get_wavg (qs.filter (fun q => decide (q.settlementPeriod = sp)))⟩ : MidRow)
      ∈ clean_MIDP qs := by
  unfold clean_MIDP
  exact List.mem_map_of_mem _ (List.mem_dedup.mpr h)

/-! ### C4 -/

/-- C4: for every settlement period present in the quotation rows whose
total volume is nonzero, the reconciled output of `clean_MIDP` contains
the row carrying the volume-weighted average price
Σ(price·volume) / Σ(volume) over that period's rows. -/
theorem c4_weighted_average_price (qs : List MidQuote) (sp : ℕ)
    (hmem : sp ∈ qs.map (fun q => q.settlementPeriod))
    (hvol : ((qs.filter (fun q => decide (q.settlementPeriod = sp))).map
      (fun q => q.volume)).sum ≠ 0) :
    (⟨sp, some ((((qs.filter (fun q => decide (q.settlementPeriod = sp))).map
        (fun q => q.price * q.volume)).sum) /
      (((qs.filter (fun q => decide (q.settlementPeriod = sp))).map
        (fun q => q.volume)).sum))⟩ : MidRow) ∈ clean_MIDP qs := by
  have h := clean_MIDP_mem_of_mem qs sp hmem
  unfold get_wavg at h
  simp only [if_neg hvol] at h
  exact h

/-- Witness for C4 at the spec's worked example: quotations
(price 50, volume 10) and (price 70, volume 30) in period 1 reconcile to
the row with price 65. -/
theorem c4_witness :
    (⟨1, some 65⟩ : MidRow) ∈ clean_MIDP qsC4 := by
  have h := c4_weighted_average_price qsC4 1 (by norm_num [qsC4]) (by norm_num [qsC4])
  norm_num [qsC4] at h
  exact h

/-! ### C9 -/

/-- Counterexample to C9: for the quotation list whose only settlement
period has total volume 0, `clean_MIDP` does not fail and does not omit
the period: it still produces an output row for period 1, with a NaN
(non-numeric) price cell coming from the float division by zero. The
claim said no output row is produced for such a period. -/
theorem c9_counterexample :
    clean_MIDP qsC9 = [⟨1, none⟩] ∧ clean_MIDP qsC9 ≠ [] := by
  constructor
  · norm_num [qsC9, clean_MIDP, get_wavg]
  · norm_num [qsC9, clean_MIDP, get_wavg]

/-- C9 amended: for every settlement period present in the quotation rows
whose total volume is 0, `clean_MIDP` still emits a row for that period,
whose reconciled price is the non-numeric cell (`none`, the NaN produced
by the float zero division) rather than a number; the period is not
dropped and no failure is raised. -/
theorem c9_zero_volume_row (qs : List MidQuote) (sp : ℕ)
    (hmem : sp ∈ qs.map (fun q => q.settlementPeriod))
    (hvol : ((qs.filter (fun q => decide (q.settlementPeriod = sp))).map
      (fun q => q.volume)).sum = 0) :
    (⟨sp, none⟩ : MidRow) ∈ clean_MIDP qs := by
  have h := clean_MIDP_mem_of_mem qs sp hmem
  unfold get_wavg at h
  simp only [if_pos hvol] at h
  exact h

/-- Witness for the amended C9 at the concrete zero-volume input. -/
theorem c9_zero_volume_row_witness :
    (⟨1, none⟩ : MidRow) ∈ clean_MIDP qsC9 :=
  c9_zero_volume_row qsC9 1 (by norm_num [qsC9]) (by norm_num [qsC9])

/-! ### Wholesale pipeline decomposition -/

/-- Every row of the per-interval wholesale revenue table arises from a
physical notification paired by the two inner joins with an index-price
row and a system-price row of the same settlement period, and carries the
revenue of the flat (`levelFrom`) or ramping (`levelFrom + levelTo`)
effective volume. -/
theorem mem_wholesale_pipeline (pns : List PNRow) (mid : List MidRow) (sys : List SysRow)
    (row : RevRow) (h : row ∈ (wholesale_pipeline pns mid sys).1) :
    ∃ p ∈ pns, ∃ m ∈ mid, ∃ s ∈ sys,
      m.settlementPeriod = p.settlementPeriod ∧ s.settlementPeriod = p.settlementPeriod ∧
      row = { nationalGridBmUnit := p.nationalGridBmUnit
              settlementPeriod := p.settlementPeriod
              levelFrom := p.levelFrom
              levelTo := p.levelTo
              midp := m.price.getD 0
              sysPrice := s.price
              hours := hoursOf p
              wholesaleMIDP := (if p.levelFrom = p.levelTo then p.levelFrom
                else p.levelFrom + p.levelTo) * hoursOf p * (m.price.getD 0)
              wholesaleSys := (if p.levelFrom = p.levelTo then p.levelFrom
                else p.levelFrom + p.levelTo) * hoursOf p * s.price } := by
  simp only [wholesale_pipeline, get_wholesale_revenue, split_pns_df, List.mem_append,
    List.mem_map, List.mem_filter, List.mem_flatMap, decide_eq_true_eq] at h
  rcases h with ⟨a, ⟨⟨p, hp, m, ⟨hm, hmsp⟩, s, ⟨hs, hssp⟩, hbuild⟩, heq⟩, hrow⟩ |
    ⟨a, ⟨a1, ⟨⟨p, hp, m, ⟨hm, hmsp⟩, s, ⟨hs, hssp⟩, hbuild⟩, hneq⟩, hnet⟩, hrow⟩
  · subst hbuild
    subst hrow
    simp only at heq
    refine ⟨p, hp, m, hm, s, hs, hmsp, hssp, ?_⟩
    rw [if_pos heq]
  · subst hbuild
    subst hnet
    subst hrow
    simp only at hneq
    refine ⟨p, hp, m, hm, s, hs, hmsp, hssp, ?_⟩
    rw [if_neg hneq]

/-! ### C2 -/

/-- Counterexample to C2: a physical notification whose settlement period
(5) is absent from the index-price series is not retained with a zero
price: the inner `pd.merge` drops it, and the wholesale table of the
pipeline is empty although a notification was supplied. The claim said
the interval is retained with the missing price filled to 0. -/
theorem c2_counterexample :
    (wholesale_pipeline pnsC2 [] sysC2).1 = [] ∧ pnsC2 ≠ [] := by
  constructor
  · simp [wholesale_pipeline, split_pns_df, get_wholesale_revenue, pnsC2, sysC2]
  · simp [pnsC2]

/-- C2 amended: the joins of `split_pns_df` are inner joins, so every
retained per-interval row has its settlement period present in both the
index-price series and the system-price series; an interval whose period
is missing from either series is dropped. (The `fillna(0)` fills only a
NaN price value sitting in a retained row — e.g. an undefined reconciled
MIDP — never a join miss.) -/
theorem c2_inner_join_drops (pns : List PNRow) (mid : List MidRow) (sys : List SysRow)
    (row : RevRow) (h : row ∈ (wholesale_pipeline pns mid sys).1) :
    (∃ m ∈ mid, m.settlementPeriod = row.settlementPeriod) ∧
    (∃ s ∈ sys, s.settlementPeriod = row.settlementPeriod) := by
  obtain ⟨p, hp, m, hm, s, hs, hmsp, hssp, hrow⟩ := mem_wholesale_pipeline pns mid sys row h
  subst hrow
  exact ⟨⟨m, hm, hmsp⟩, ⟨s, hs, hssp⟩⟩

/-- Witness for the amended C2 at a concrete retained row. -/
theorem c2_inner_join_drops_witness :
    (∃ m ∈ midC2, m.settlementPeriod = rowC2.settlementPeriod) ∧
    (∃ s ∈ sysC2, s.settlementPeriod = rowC2.settlementPeriod) :=
  c2_inner_join_drops pnsC2 midC2 sysC2 rowC2
    (by norm_num [wholesale_pipeline, split_pns_df, get_wholesale_revenue, hoursOf,
      pnsC2, midC2, sysC2, rowC2])

/-! ### C3 -/

/-- C3: every per-interval row of the wholesale revenue table earns, for
each price series, effective volume × duration-hours × price, where the
effective volume is `levelFrom` when the interval is flat
(`levelFrom = levelTo`) and `levelFrom + levelTo` when it ramps. -/
theorem c3_effective_volume (pns : List PNRow) (mid : List MidRow) (sys : List SysRow)
    (row : RevRow) (h : row ∈ (wholesale_pipeline pns mid sys).1) :
    row.wholesaleMIDP = (if row.levelFrom = row.levelTo then row.levelFrom
      else row.levelFrom + row.levelTo) * row.hours * row.midp ∧
    row.wholesaleSys = (if row.levelFrom = row.levelTo then row.levelFrom
      else row.levelFrom + row.levelTo) * row.hours * row.sysPrice := by
  obtain ⟨p, hp, m, hm, s, hs, hmsp, hssp, hrow⟩ := mem_wholesale_pipeline pns mid sys row h
  subst hrow
  exact ⟨rfl, rfl⟩

/-- Witness for C3 at one flat and one ramping interval: the flat row
earns 3 × 0.5 h × price, the ramping row earns (2 + 4) × 0.5 h × price. -/
theorem c3_effective_volume_witness :
    (rowC2.wholesaleMIDP = (if rowC2.levelFrom = rowC2.levelTo then rowC2.levelFrom
        else rowC2.levelFrom + rowC2.levelTo) * rowC2.hours * rowC2.midp ∧
      rowC2.wholesaleSys = (if rowC2.levelFrom = rowC2.levelTo then rowC2.levelFrom
        else rowC2.levelFrom + rowC2.levelTo) * rowC2.hours * rowC2.sysPrice) ∧
    (rowC3.wholesaleMIDP = (if rowC3.levelFrom = rowC3.levelTo then rowC3.levelFrom
        else rowC3.levelFrom + rowC3.levelTo) * rowC3.hours * rowC3.midp ∧
      rowC3.wholesaleSys = (if rowC3.levelFrom = rowC3.levelTo then rowC3.levelFrom
        else rowC3.levelFrom + rowC3.levelTo) * rowC3.hours * rowC3.sysPrice) :=
  ⟨c3_effective_volume pnsC2 midC2 sysC2 rowC2
      (by norm_num [wholesale_pipeline, split_pns_df, get_wholesale_revenue, hoursOf,
        pnsC2, midC2, sysC2, rowC2]),
    c3_effective_volume pnsC3 midC2 sysC2 rowC3
      (by norm_num [wholesale_pipeline, split_pns_df, get_wholesale_revenue, hoursOf,
        pnsC3, midC2, sysC2, rowC3])⟩

/-! ### Revenue merger decomposition -/

/-- Every leaderboard row produced by `format_revenue_reporting` is the
cleaned image of one input row: NaN cells filled with 0, the four revenue
columns truncated to integers, the total summed from the truncated
DFR / Wholesale MIDP / BM integers, and k/MW/yr the truncation of
total × 365 / (MW × 1000). -/
theorem mem_format_revenue_reporting (rows : List RevenueInputRow) (out : LeaderRow)
    (h : out ∈ format_revenue_reporting rows) :
    ∃ r ∈ rows,
      out = { site := r.site, owner := r.owner, optimiser := r.optimiser
              efaDate := r.efaDate, mw := r.mw, mwh := r.mwh
              dfr := truncInt (r.dfr.getD 0)
              bm := truncInt (r.bm.getD 0)
              wholesaleMIDP := truncInt (r.wholesaleMIDP.getD 0)
              wholesaleSys := truncInt (r.wholesaleSys.getD 0)
              total := truncInt (r.dfr.getD 0) + truncInt (r.wholesaleMIDP.getD 0) +
                truncInt (r.bm.getD 0)
              kMWyr := truncInt ((((truncInt (r.dfr.getD 0) +
                truncInt (r.wholesaleMIDP.getD 0) + truncInt (r.bm.getD 0) : ℤ) : ℚ) * 365) /
                (r.mw * 1000)) } := by
  unfold format_revenue_reporting at h
  rw [List.mem_map] at h
  obtain ⟨p, hp, hout⟩ := h
  have hp2 : p ∈ rows.map cleanRow :=
    (List.perm_insertionSort (fun a b : PreRow => b.kq ≤ a.kq) (rows.map cleanRow)).mem_iff.mp hp
  rw [List.mem_map] at hp2
  obtain ⟨r, hr, hpr⟩ := hp2
  subst hpr
  subst hout
  exact ⟨r, hr, rfl⟩

/-! ### C5 -/

/-- C5: in every leaderboard row the total-revenue column is the sum of
the DFR, wholesale index-price and balancing columns; the system-price
wholesale column is excluded from the total. -/
theorem c5_total_excludes_sys (rows : List RevenueInputRow) (out : LeaderRow)
    (h : out ∈ format_revenue_reporting rows) :
    out.total = out.dfr + out.wholesaleMIDP + out.bm := by
  obtain ⟨r, hr, hout⟩ := mem_format_revenue_reporting rows out h
  subst hout
  rfl

/-- Witness for C5 at the spec's example row: DFR 100, Wholesale MIDP 50,
Wholesale Sys 999, BM 25 gives total 175, the system-price column playing
no part. -/
theorem c5_total_excludes_sys_witness :
    lrC5 ∈ format_revenue_reporting [rowC5] ∧
    lrC5.total = lrC5.dfr + lrC5.wholesaleMIDP + lrC5.bm ∧ lrC5.total = 175 := by
  have hmem : lrC5 ∈ format_revenue_reporting [rowC5] := by
    norm_num [format_revenue_reporting, cleanRow, truncInt, List.insertionSort,
      List.orderedInsert, rowC5, lrC5]
  exact ⟨hmem, c5_total_excludes_sys [rowC5] lrC5 hmem, by norm_num [lrC5]⟩

/-! ### C6 -/

/-- C6: in every leaderboard row with MW > 0 the normalized column equals
total revenue × 365 / (MW × 1000) truncated to an integer. -/
theorem c6_normalized_metric (rows : List RevenueInputRow) (out : LeaderRow)
    (h : out ∈ format_revenue_reporting rows) (hmw : 0 < out.mw) :
    out.kMWyr = truncInt (((out.total : ℚ) * 365) / (out.mw * 1000)) := by
  obtain ⟨r, hr, hout⟩ := mem_format_revenue_reporting rows out h
  subst hout
  rfl

/-- Witness for C6 at the spec's example: total 36500 on a 2 MW asset
yields trunc(36500 × 365 / 2000) = 6661. -/
theorem c6_normalized_metric_witness :
    lrC6 ∈ format_revenue_reporting [rowC6] ∧ 0 < lrC6.mw ∧
    lrC6.kMWyr = truncInt (((lrC6.total : ℚ) * 365) / (lrC6.mw * 1000)) ∧
    lrC6.kMWyr = 6661 := by
  have hmem : lrC6 ∈ format_revenue_reporting [rowC6] := by
    norm_num [format_revenue_reporting, cleanRow, truncInt, List.insertionSort,
      List.orderedInsert, rowC6, lrC6]
  exact ⟨hmem, by norm_num [lrC6],
    c6_normalized_metric [rowC6] lrC6 hmem (by norm_num [lrC6]), by norm_num [lrC6]⟩

/-! ### C1 -/

/-- Counterexample to C1: for the input row with pre-truncation revenues
DFR = 0.5, Wholesale MIDP = 0.5, BM = 0.5, the code's leaderboard total is
0 (the `astype(int)` truncation runs before `Total (£)` is computed),
while the sum of the pre-truncation values is 1.5 ≠ 0. The claim said the
total equals the pre-truncation sum. -/
theorem c1_counterexample :
    (format_revenue_reporting [rowC1]).map (fun o => (o.total : ℚ)) = [0] ∧
    rowC1.dfr.getD 0 + rowC1.wholesaleMIDP.getD 0 + rowC1.bm.getD 0 ≠ (0 : ℚ) := by
  constructor
  · norm_num [format_revenue_reporting, cleanRow, truncInt, List.insertionSort,
      List.orderedInsert, rowC1]
  · norm_num [rowC1]

/-- C1 amended: in every merged leaderboard row the total is computed
from the already-truncated integer DFR, wholesale index-price and
balancing values (`astype(int)` runs before `Total (£)` is derived);
truncation therefore happens before totalling, not only before display. -/
theorem c1_total_from_truncated (rows : List RevenueInputRow) (out : LeaderRow)
    (h : out ∈ format_revenue_reporting rows) :
    ∃ r ∈ rows, out.total = truncInt (r.dfr.getD 0) + truncInt (r.wholesaleMIDP.getD 0) +
      truncInt (r.bm.getD 0) := by
  obtain ⟨r, hr, hout⟩ := mem_format_revenue_reporting rows out h
  subst hout
  exact ⟨r, hr, rfl⟩

/-- Witness for the amended C1 at the sub-pound row. -/
theorem c1_total_from_truncated_witness :
    ∃ r ∈ [rowC1], lrC1.total = truncInt (r.dfr.getD 0) +
      truncInt (r.wholesaleMIDP.getD 0) + truncInt (r.bm.getD 0) :=
  c1_total_from_truncated [rowC1] lrC1
    (by norm_num [format_revenue_reporting, cleanRow, truncInt, List.insertionSort,
      List.orderedInsert, rowC1, lrC1])

/-! ### C7 -/

/-- C7: every auction record's revenue is clearing price × cleared volume
× 4, and the aggregated table sums exactly the matched records (unit name
among the mapping table's DFR/FFR ids) grouped by (unit name, EFA date). -/
theorem c7_auction_revenue (map_df : List AssetRow) (recs : List AuctionRec) :
    (∀ row ∈ get_DFR_revenue recs,
      row.revenue = row.clearingPrice * row.clearedVolume * 4) ∧
    (∀ entry ∈ filter_dfr_bmu map_df (get_DFR_revenue recs),
      entry.revenue = (((get_DFR_revenue recs).filter (fun r =>
        decide (r.unitName ∈ map_df.map (fun a => a.dfrId) ∧
          r.unitName = entry.unitName ∧ r.efaDate = entry.efaDate))).map
        (fun r => r.revenue)).sum) := by
  constructor
  · intro row h
    rw [get_DFR_revenue, List.mem_map] at h
    obtain ⟨r, _, hr⟩ := h
    subst hr
    rfl
  · intro entry h
    simp only [filter_dfr_bmu, List.mem_map] at h
    obtain ⟨k, hk, hentry⟩ := h
    subst hentry
    simp only []
    congr 1
    congr 1
    rw [List.filter_filter]
    apply List.filter_congr
    intro a _
    simp [List.mem_dedup, Bool.decide_and, Bool.and_comm, Bool.and_left_comm, Bool.and_assoc]

/-- Witness for C7: the record with clearing price 4 and cleared volume 2
earns 4 × 2 × 4 = 32, and the (UNIT1, 2023-01-01) aggregate equals the
summed revenue of its matched records. -/
theorem c7_auction_revenue_witness :
    (rowC7 ∈ get_DFR_revenue recsC7 ∧
      rowC7.revenue = rowC7.clearingPrice * rowC7.clearedVolume * 4 ∧
      rowC7.revenue = 32) ∧
    (aggC7 ∈ filter_dfr_bmu mapC7 (get_DFR_revenue recsC7) ∧
      aggC7.revenue = (((get_DFR_revenue recsC7).filter (fun r =>
        decide (r.unitName ∈ mapC7.map (fun a => a.dfrId) ∧
          r.unitName = aggC7.unitName ∧ r.efaDate = aggC7.efaDate))).map
        (fun r => r.revenue)).sum) := by
  have hrow : rowC7 ∈ get_DFR_revenue recsC7 := by
    norm_num [get_DFR_revenue, recsC7, rowC7]
  have hagg : aggC7 ∈ filter_dfr_bmu mapC7 (get_DFR_revenue recsC7) := by
    norm_num [filter_dfr_bmu, get_DFR_revenue, mapC7, recsC7, aggC7]
  exact ⟨⟨hrow, (c7_auction_revenue mapC7 recsC7).1 rowC7 hrow, by norm_num [rowC7]⟩,
    ⟨hagg, (c7_auction_revenue mapC7 recsC7).2 aggC7 hagg⟩⟩

/-! ### C8 -/

/-- C8: an asset absent from the grouped wholesale table is absent from
the combined table: `pd.merge(dfr_df, wholesale_df, on="Unit Name")` is an
inner join, so no output row carries a unit name that no wholesale row
carries, however present the unit is in the DFR (auction) input. -/
theorem c8_wholesale_inner_join (dfr_df : List DfrOutRow) (ws : List GroupedWholesale)
    (u : String) (habs : ∀ w ∈ ws, w.unitName ≠ u) :
    ∀ row ∈ append_wholesale_to_dfr dfr_df ws, row.unitName ≠ u := by
  intro row h
  simp only [append_wholesale_to_dfr, List.mem_flatMap, List.mem_map, List.mem_filter,
    decide_eq_true_eq] at h
  obtain ⟨d, hd, w, ⟨hw, hwn⟩, hrow⟩ := h
  subst hrow
  intro hc
  exact habs w hw (by rw [hwn]; exact hc)

/-- Witness for C8: asset B is in the DFR table but not in the wholesale
table, and the combined table's row (asset A's) does not carry B. -/
theorem c8_wholesale_inner_join_witness :
    (∃ d ∈ dfrC8, d.unitName = "B") ∧
    combC8 ∈ append_wholesale_to_dfr dfrC8 wsC8 ∧ combC8.unitName ≠ "B" := by
  have hmem : combC8 ∈ append_wholesale_to_dfr dfrC8 wsC8 := by
    norm_num [append_wholesale_to_dfr, dfrC8, wsC8, combC8]
  refine ⟨⟨⟨"B", "2023-01-01", 50, "BB", "SiteB", "OwnB", "OpB", 5, 10⟩, by norm_num [dfrC8], rfl⟩,
    hmem, c8_wholesale_inner_join dfrC8 wsC8 "B" (by decide) combC8 hmem⟩

/-! ### C10 helper lemmas -/

/-- When a partial map is defined on every element of a list, filterMap
keeps the length and pairs each element with its image. -/
theorem filterMap_length_zip_of_forall_isSome {α β : Type} (f : α → Option β) :
    ∀ l : List α, (∀ a ∈ l, (f a).isSome = true) →
      (l.filterMap f).length = l.length ∧ ∀ p ∈ l.zip (l.filterMap f), f p.1 = some p.2 := by
  intro l
  induction l with
  | nil => intro _; exact ⟨rfl, by intro p hp; simp at hp⟩
  | cons a t ih =>
    intro h
    obtain ⟨b, hb⟩ := Option.isSome_iff_exists.mp (h a (List.mem_cons_self a t))
    have ht := ih (fun x hx => h x (List.mem_cons_of_mem a hx))
    rw [List.filterMap_cons_some hb]
    refine ⟨by simp [ht.1], ?_⟩
    intro p hp
    rw [List.zip_cons_cons] at hp
    rcases List.mem_cons.mp hp with h1 | h2
    · rw [h1]; exact hb
    · exact ht.2 p h2

/-- When a partial map is undefined on some element of a list, filterMap
shortens the list. -/
theorem filterMap_length_lt_of_none {α β : Type} (f : α → Option β) :
    ∀ l : List α, (∃ a ∈ l, f a = none) → (l.filterMap f).length < l.length := by
  intro l
  induction l with
  | nil => intro h; simp at h
  | cons a t ih =>
    intro h
    obtain ⟨x, hx, hfx⟩ := h
    rcases List.mem_cons.mp hx with h1 | h2
    · rw [h1] at hfx
      rw [List.filterMap_cons_none hfx, List.length_cons]
      exact Nat.lt_succ_of_le (List.length_filterMap_le f t)
    · cases hfa : f a with
      | none =>
        rw [List.filterMap_cons_none hfa, List.length_cons]
        exact Nat.lt_succ_of_le (List.length_filterMap_le f t)
      | some b =>
        rw [List.filterMap_cons_some hfa, List.length_cons, List.length_cons]
        exact Nat.succ_lt_succ (ih ⟨x, h2, hfx⟩)

/-! ### C10 -/

/-- C10: when every unit name of the aggregated auction table has a
dictionary entry, `replace_units_with_site_names` succeeds and returns a
table of the same row count in which each row carries its input row's
unit name, EFA date and revenue together with exactly the mapped asset's
BMU id, site, owner, optimiser, MW and MWh; when some unit name has no
entry, the collected lists are shorter than the table and the pandas
column assignment fails (`none`) instead of dropping the row. -/
theorem c10_replace_units (df : List DfrAggRow) (m : List (String × AssetInfo)) :
    ((∀ r ∈ df, (dictFind m r.unitName).isSome = true) →
      ∃ out, replace_units_with_site_names df m = some out ∧ out.length = df.length ∧
        ∀ p ∈ df.zip out, ∀ a, dictFind m p.1.unitName = some a →
          p.2.unitName = p.1.unitName ∧ p.2.efaDate = p.1.efaDate ∧ p.2.dfr = p.1.revenue ∧
          p.2.bmuId = a.bmuId ∧ p.2.site = a.site ∧ p.2.owner = a.owner ∧
          p.2.optimiser = a.optimiser ∧ p.2.mw = a.mw ∧ p.2.mwh = a.mwh) ∧
    ((∃ r ∈ df, dictFind m r.unitName = none) →
      replace_units_with_site_names df m = none) := by
  constructor
  · intro h
    have hsome : ∀ r ∈ df, (((dictFind m r.unitName).map (fun a =>
        ({ unitName := r.unitName, efaDate := r.efaDate, dfr := r.revenue
           bmuId := a.bmuId, site := a.site, owner := a.owner
           optimiser := a.optimiser, mw := a.mw, mwh := a.mwh } : DfrOutRow))).isSome = true) := by
      intro r hr
      have := h r hr
      cases hfind : dictFind m r.unitName with
      | none => rw [hfind] at this; simp at this
      | some a => simp [hfind]
    obtain ⟨hlen, hzip⟩ := filterMap_length_zip_of_forall_isSome _ df hsome
    refine ⟨_, ?_, hlen, ?_⟩
    · unfold replace_units_with_site_names
      rw [if_pos hlen]
    · intro p hp a ha
      have := hzip p hp
      rw [ha] at this
      simp only [Option.map_some'] at this
      rw [← Option.some_inj.mp this]
      exact ⟨rfl, rfl, rfl, rfl, rfl, rfl, rfl, rfl, rfl⟩
  · intro h
    obtain ⟨r, hr, hnone⟩ := h
    have hlt := filterMap_length_lt_of_none (fun r => ((dictFind m r.unitName).map (fun a =>
      ({ unitName := r.unitName, efaDate := r.efaDate, dfr := r.revenue
         bmuId := a.bmuId, site := a.site, owner := a.owner
         optimiser := a.optimiser, mw := a.mw, mwh := a.mwh } : DfrOutRow)))) df
      ⟨r, hr, by simp [hnone]⟩
    unfold replace_units_with_site_names
    rw [if_neg (Nat.ne_of_lt hlt)]

/-- Witness for C10: the fully-mapped table succeeds with the mapped
columns, and the table containing unmapped unit U2 makes the assignment
fail. -/
theorem c10_replace_units_witness :
    (∃ out, replace_units_with_site_names dfC10a dictC10 = some out ∧
      out.length = dfC10a.length ∧
      ∀ p ∈ dfC10a.zip out, ∀ a, dictFind dictC10 p.1.unitName = some a →
        p.2.unitName = p.1.unitName ∧ p.2.efaDate = p.1.efaDate ∧ p.2.dfr = p.1.revenue ∧
        p.2.bmuId = a.bmuId ∧ p.2.site = a.site ∧ p.2.owner = a.owner ∧
        p.2.optimiser = a.optimiser ∧ p.2.mw = a.mw ∧ p.2.mwh = a.mwh) ∧
    replace_units_with_site_names dfC10b dictC10 = none :=
  ⟨(c10_replace_units dfC10a dictC10).1
      (by intro r hr; fin_cases hr; simp [dictFind, dictC10]),
    (c10_replace_units dfC10b dictC10).2
      ⟨⟨"U2", "2023-01-01", 5⟩, by norm_num [dfC10b], by simp [dictFind, dictC10]⟩⟩

end Bess
